import Mathlib

/-!
Verification development for `prometheus_dirsize_exporter/exporter.py`.

The embedding translates the module's core class `BudgetedDirInfoWalker`:
  * `do_iops_action` (the IOPS rate limiter) becomes an explicit state-passing
    function over `LimiterState`, with monotonic time passed in as a `Nat`
    nanosecond value and `time.sleep` idealised as exact;
  * `get_dir_info` (the recursive directory scanner) becomes a recursive
    function over a tree model `Node` of the filesystem as observed during the
    scan, with Python exceptions modelled by `Except PyExc`;
  * `get_subdirs_info` (the top-level per-child enumeration) becomes a function
    returning the list of values the generator yields plus the exception, if
    any, with which it terminates.
-/

/-- Python exceptions relevant to the walker.  In Python, `PermissionError` is
a subclass of `OSError`, and `FileNotFoundError` (modelled structurally via
`Option`) is as well.  `code` is the `errno` attribute. -/
inductive PyExc : Type where
  | osError (code : Nat) : PyExc
  | permissionError (code : Nat) : PyExc
deriving DecidableEq

deriving instance DecidableEq for Except

/-- `isinstance(e, OSError)`: every modelled exception is an `OSError`,
because `PermissionError` subclasses `OSError` in Python. -/
def isOSError : PyExc → Bool := fun _ => true

/-- `isinstance(e, PermissionError)`. -/
def isPermissionError : PyExc → Bool
  | .permissionError _ => true
  | _ => false

/-- The `errno` attribute of the exception. -/
def errnoOf : PyExc → Nat
  | .osError c => c
  | .permissionError c => c

/-- Mirror of the namedtuple `DirInfo` from the source, minus the two fields
that are pure wall-clock observations (`processing_time`) or derived from the
argument (`path` is kept, as `os.path.basename` output). Sizes are `Nat`
(`st_size` is non-negative), mtimes are `Int` (only compared and copied). -/
@[ext]
structure DirInfo : Type where
  path : String
  size : Nat
  latest_mtime : Int
  oldest_mtime : Int
  entries_count : Nat
deriving DecidableEq

/-- A filesystem entry as observed by one scan.  Each constructor fixes the
results of the `os.path.isfile` / `os.path.islink` / `os.path.isdir` checks
(which follow symlinks) and of the `os.stat(..., follow_symlinks=False)` call,
including the races the source code handles:

  * `file name size mtime`: a regular file; `isfile` is true, stat succeeds.
  * `vfile name`: a regular file that is still present when classified
    (`isfile` true) but deleted before the per-file stat, which therefore
    raises `FileNotFoundError`.
  * `flink name size mtime`: a symbolic link to a regular file; `isfile`
    (which follows the link) is true, `islink` is true, and the
    `follow_symlinks=False` stat reports the link's own size and mtime.
  * `dlink name lsize lmtime tsize tmtime tchildren`: a symbolic link to a
    directory; `isfile` is false, `islink` is true, and `isdir` (which follows
    the link) is true.  The `follow_symlinks=False` stat reports the link's own
    `lsize`/`lmtime`; a recursive `get_dir_info` on the link path follows the
    link, so its self-stat sees `tsize`/`tmtime` and its listing sees
    `tchildren`.
  * `dir name size mtime children`: a directory; `isdir` true.
  * `vdir name`: a directory still present when classified (`isdir` true) but
    deleted before the recursive scan's self-stat, which raises
    `FileNotFoundError`.
  * `pdir name code`: a directory whose self-stat succeeds but whose
    `os.listdir` raises `PermissionError` with the given `errno`. -/
inductive Node : Type where
  | file (name : String) (size : Nat) (mtime : Int) : Node
  | vfile (name : String) : Node
  | flink (name : String) (size : Nat) (mtime : Int) : Node
  | dlink (name : String) (lsize : Nat) (lmtime : Int)
      (tsize : Nat) (tmtime : Int) (tchildren : List Node) : Node
  | dir (name : String) (size : Nat) (mtime : Int) (children : List Node) : Node
  | vdir (name : String) : Node
  | pdir (name : String) (code : Nat) : Node

/-- Result of `os.path.isfile` (follows symlinks) at classification time. -/
def osIsFile : Node → Bool
  | .file _ _ _ => true
  | .vfile _ => true
  | .flink _ _ _ => true
  | _ => false

/-- Result of `os.path.islink` at classification time. -/
def osIsLink : Node → Bool
  | .flink _ _ _ => true
  | .dlink _ _ _ _ _ _ => true
  | _ => false

/-- Result of `os.path.isdir` (follows symlinks) at classification time. -/
def osIsDir : Node → Bool
  | .dlink _ _ _ _ _ _ => true
  | .dir _ _ _ _ => true
  | .vdir _ => true
  | .pdir _ _ => true
  | _ => false

/-- The filter of the `files` list comprehension in `get_dir_info`:
`os.path.isfile(c) or os.path.islink(c)`. -/
def isFileLike (c : Node) : Bool := osIsFile c || osIsLink c

/-- Result of `os.stat(f, follow_symlinks=False)` in the per-file loop of
`get_dir_info`: `none` models `FileNotFoundError`, `some (size, mtime)` the
`st_size` and `st_mtime` of the stat result (the link's own, for symlinks). -/
def lstatResult : Node → Option (Nat × Int)
  | .file _ s m => some (s, m)
  | .flink _ s m => some (s, m)
  | .dlink _ ls lm _ _ _ => some (ls, lm)
  | _ => none

/-- The accumulator initialisation of `get_dir_info`:
`total_size = self_statinfo.st_size`, `latest_mtime = oldest_mtime =
self_statinfo.st_mtime`, `entries_count = len(files) + 1`. -/
def initInfo (name : String) (selfSize : Nat) (selfMtime : Int)
    (fileCount : Nat) : DirInfo :=
  { path := name
    size := selfSize
    latest_mtime := selfMtime
    oldest_mtime := selfMtime
    entries_count := fileCount + 1 }

/-- One iteration of the `for f in files` loop body after a successful stat:
add `st_size` to the total and fold `st_mtime` into the max/min trackers with
the source's `if latest_mtime < st_mtime` / `if oldest_mtime > st_mtime`. -/
def applyFileStat (acc : DirInfo) (s : Nat) (m : Int) : DirInfo :=
  { acc with
    size := acc.size + s
    latest_mtime := if acc.latest_mtime < m then m else acc.latest_mtime
    oldest_mtime := if acc.oldest_mtime > m then m else acc.oldest_mtime }

/-- The `for f in files` loop of `get_dir_info`: a failed stat
(`FileNotFoundError`, i.e. `lstatResult` is `none`) is skipped with
`continue`, a successful one is folded in. -/
def foldFiles (acc : DirInfo) : List Node → DirInfo
  | [] => acc
  | c :: rest =>
    match lstatResult c with
    | none => foldFiles acc rest
    | some (s, m) => foldFiles (applyFileStat acc s m) rest

/-- One iteration of the `for d in dirs` loop body when the recursive call
returned a `DirInfo`: add its `size` and `entries_count`, and fold its
`latest_mtime` — the source reads `dirinfo.latest_mtime` in both the max and
the min update — into the trackers. -/
def mergeDir (acc : DirInfo) (i : DirInfo) : DirInfo :=
  { acc with
    size := acc.size + i.size
    entries_count := acc.entries_count + i.entries_count
    latest_mtime :=
      if acc.latest_mtime < i.latest_mtime then i.latest_mtime
      else acc.latest_mtime
    oldest_mtime :=
      if acc.oldest_mtime > i.latest_mtime then i.latest_mtime
      else acc.oldest_mtime }

mutual

/-- `BudgetedDirInfoWalker.get_dir_info`, on the node the scanned path
resolves to.  The `try: os.stat(path) except FileNotFoundError: return None`
around the self-stat yields `Except.ok none` for a vanished directory.  A
`PermissionError` from `os.listdir` of an unreadable directory propagates
(`get_dir_info` catches only `FileNotFoundError`).  For a symlink to a
directory, every call in `get_dir_info` follows the link, so the scan proceeds
on the target's stat data and children while reporting the link's own name.
The catch-all on file-like constructors is dead: the source only recurses on
entries classified by `os.path.isdir`. -/
def get_dir_info : Node → Except PyExc (Option DirInfo)
  | .dir n s m cs =>
    Except.map some
      (foldDirs (foldFiles (initInfo n s m (cs.filter isFileLike).length)
        (cs.filter isFileLike)) cs)
  | .dlink n _ _ ts tm tcs =>
    Except.map some
      (foldDirs (foldFiles (initInfo n ts tm (tcs.filter isFileLike).length)
        (tcs.filter isFileLike)) tcs)
  | .vdir _ => .ok none
  | .pdir _ c => .error (.permissionError c)
  | _ => .ok none

/-- The `for d in dirs` loop of `get_dir_info`.  The source iterates over
`dirs = [c for c in children if isdir(c)]`; here the filter is fused into the
loop (entries failing the `isdir` check are passed over), which visits the
same entries in the same order.  A recursive result of `None` is skipped with
`continue`; an exception escaping the recursive call aborts the loop. -/
def foldDirs (acc : DirInfo) : List Node → Except PyExc DirInfo
  | [] => .ok acc
  | c :: rest =>
    if osIsDir c then
      match get_dir_info c with
      | .error e => .error e
      | .ok none => foldDirs acc rest
      | .ok (some i) => foldDirs (mergeDir acc i) rest
    else foldDirs acc rest

end

/-- The body of `get_dir_info` on a directory whose self-stat succeeded with
`st_size = s` and `st_mtime = m`, whose `os.path.basename` is `n` and whose
listing is `cs`: classification, the files loop, then the dirs loop.
`get_dir_info` on a `dir` or `dlink` node is definitionally
`Except.map some` of this. -/
def scanListing (n : String) (s : Nat) (m : Int) (cs : List Node) :
    Except PyExc DirInfo :=
  foldDirs (foldFiles (initInfo n s m (cs.filter isFileLike).length)
    (cs.filter isFileLike)) cs

/-- Whether `get_dir_info` on this node terminates without raising. -/
def scanOk (c : Node) : Bool :=
  match get_dir_info c with
  | .ok _ => true
  | .error _ => false

/-- The value `get_subdirs_info` yields for this child when no exception
escapes: exactly the return value of `get_dir_info` (including `None`). -/
def scanYield (c : Node) : Option DirInfo :=
  match get_dir_info c with
  | .ok r => r
  | .error _ => none

/-- The exception-handler chain of `get_subdirs_info`, in source order:
`except OSError as e` first (swallow iff `e.errno == 116`, else re-raise),
then `except PermissionError as e` (swallow iff `e.errno == 13`).  Python
dispatches to the first clause whose class matches; since `PermissionError`
is a subclass of `OSError`, the first clause matches every modelled
exception.  Returns `true` iff the exception is swallowed (the generator then
just returns). -/
def subdirsExcSwallowed (e : PyExc) : Bool :=
  if isOSError e then errnoOf e == 116
  else if isPermissionError e then errnoOf e == 13
  else false

/-- The `for c in dirs: yield self.get_dir_info(c)` loop of
`get_subdirs_info`, accumulating yielded values (reversed); on an exception
from a recursive scan, the generator terminates — quietly if the handler
chain swallows it, otherwise re-raising it to the consumer. -/
def subdirsLoop : List Node → List (Option DirInfo) →
    List (Option DirInfo) × Option PyExc
  | [], acc => (acc.reverse, none)
  | c :: rest, acc =>
    match get_dir_info c with
    | .ok r => subdirsLoop rest (r :: acc)
    | .error e =>
      if subdirsExcSwallowed e then (acc.reverse, none)
      else (acc.reverse, some e)

/-- `BudgetedDirInfoWalker.get_subdirs_info`, given the listing of the parent
directory: classify children with `os.path.isdir`, then yield
`get_dir_info(c)` for each.  Returns the sequence of yielded values and the
exception, if any, with which the generator terminated. -/
def get_subdirs_info (children : List Node) :
    List (Option DirInfo) × Option PyExc :=
  subdirsLoop (children.filter osIsDir) []

/-- `ONE_S_IN_NS = 1_000_000_000` from the source. -/
def ONE_S_IN_NS : Nat := 1000000000

/-- The mutable state of `BudgetedDirInfoWalker` used by `do_iops_action`:
`iops_budget`, `_last_iops_reset_time` (monotonic nanoseconds) and
`_io_calls_since_last_reset`. -/
structure LimiterState : Type where
  iops_budget : Nat
  last_iops_reset_time : Nat
  io_calls_since_last_reset : Nat
deriving DecidableEq

/-- The window-management phase of `do_iops_action`, called at monotonic time
`t` (nanoseconds): reset the window if more than one second has elapsed since
the last reset; then, if `_io_calls_since_last_reset > iops_budget` (the
source's strict comparison), sleep for
`(ONE_S_IN_NS - (now - last_reset) + 1) / ONE_S_IN_NS` seconds and reset the
window.  Sleeps are idealised as exact and the repeated `time.monotonic_ns()`
reads within one call as equal, so the post-sleep time is
`last_reset + ONE_S_IN_NS + 1`.  Returns the state just before the wrapped
operation runs, the monotonic time at which it runs, and whether the call
slept. -/
def limiterAdjust (st : LimiterState) (t : Nat) : LimiterState × Nat × Bool :=
  let st1 :=
    if t - st.last_iops_reset_time > ONE_S_IN_NS then
      { st with io_calls_since_last_reset := 0, last_iops_reset_time := t }
    else st
  if st1.io_calls_since_last_reset > st1.iops_budget then
    let tw := st1.last_iops_reset_time + ONE_S_IN_NS + 1
    ({ st1 with io_calls_since_last_reset := 0, last_iops_reset_time := tw },
      tw, true)
  else (st1, t, false)

/-- `BudgetedDirInfoWalker.do_iops_action` at monotonic time `t`, wrapping an
operation whose outcome is `op` (`Except.error e` models `func` raising `e`):
after the window-management phase the operation runs; only on a normal return
does `_io_calls_since_last_reset += 1` execute, while an exception propagates
past the increment.  Returns `((state, execution time, slept), outcome)`. -/
def do_iops_action (st : LimiterState) (t : Nat) (op : Except PyExc Unit) :
    (LimiterState × Nat × Bool) × Except PyExc Unit :=
  let r := limiterAdjust st t
  match op with
  | .error e => (r, .error e)
  | .ok a =>
    (({ r.1 with io_calls_since_last_reset :=
        r.1.io_calls_since_last_reset + 1 }, r.2.1, r.2.2), .ok a)

/-- `n` back-to-back successful operations through `do_iops_action`, the
first arriving at monotonic time `t` and each subsequent one arriving when
the previous one executed (operations themselves take no time).  Returns the
list of `(execution time, slept)` pairs and the final limiter state. -/
def runCalls (st : LimiterState) (t : Nat) : Nat →
    List (Nat × Bool) × LimiterState
  | 0 => ([], st)
  | n + 1 =>
    match do_iops_action st t (Except.ok ()) with
    | ((st2, texec, slept), _) =>
      match runCalls st2 texec n with
      | (evs, stf) => ((texec, slept) :: evs, stf)

/-- Sum of the `st_size` values reported by the successful
`follow_symlinks=False` stats over a list of entries (entries whose stat
raises `FileNotFoundError` contribute nothing). -/
def fileSizeSum : List Node → Nat
  | [] => 0
  | c :: rest =>
    (match lstatResult c with
     | some p => p.1
     | none => 0) + fileSizeSum rest

/-- Sum of `size` over the entries classified as directories whose recursive
`get_dir_info` returns a `DirInfo` (vanished subtrees contribute nothing). -/
def subsSizeSum : List Node → Nat
  | [] => 0
  | c :: rest =>
    (if osIsDir c then
       match get_dir_info c with
       | .ok (some i) => i.size
       | _ => 0
     else 0) + subsSizeSum rest

/-- Sum of `entries_count` over the entries classified as directories whose
recursive `get_dir_info` returns a `DirInfo`. -/
def subsEntriesSum : List Node → Nat
  | [] => 0
  | c :: rest =>
    (if osIsDir c then
       match get_dir_info c with
       | .ok (some i) => i.entries_count
       | _ => 0
     else 0) + subsEntriesSum rest

/-- Whether an entry is a file that vanishes between listing and stat. -/
def isVanishedFile : Node → Bool
  | .vfile _ => true
  | _ => false

/-- Number of listed file-like entries whose stat raises
`FileNotFoundError`. -/
def vanishedFileCount (cs : List Node) : Nat :=
  (cs.filter isVanishedFile).length

/-- The same listing with the vanishing files removed, i.e. the listing the
scan would have seen had those files already been deleted at listing time. -/
def pruneVanishedFiles (cs : List Node) : List Node :=
  cs.filter (fun c => !isVanishedFile c)

/-- Add `k` to the `entries_count` field, leaving every other field alone. -/
def addEntries (k : Nat) (i : DirInfo) : DirInfo :=
  { i with entries_count := i.entries_count + k }

/-- One filesystem call issued by the walker: which library call it is, and
whether it was routed through `do_iops_action` (`budgeted = true`) or issued
directly (`budgeted = false`). -/
structure FSOp : Type where
  call : String
  budgeted : Bool
deriving DecidableEq

/-- The calls issued by the `files` list comprehension of `get_dir_info`:
for each child, `do_iops_action(os.path.isfile, c)`, and — only when that
returns `False`, because Python's `or` short-circuits —
`do_iops_action(os.path.islink, c)`. -/
def classifyFileOps : List Node → List FSOp
  | [] => []
  | c :: rest =>
    (if osIsFile c then [⟨"isfile", true⟩] else [⟨"isfile", true⟩, ⟨"islink", true⟩])
      ++ classifyFileOps rest

/-- The calls issued by the `dirs` list comprehension of `get_dir_info`:
`do_iops_action(os.path.isdir, c)` for each child. -/
def classifyDirOps (cs : List Node) : List FSOp :=
  cs.map (fun _ => ⟨"isdir", true⟩)

/-- The calls issued by the `for f in files` loop of `get_dir_info`:
one `do_iops_action(os.stat, f, follow_symlinks=False)` per file-like entry
(issued — and counted here — even when it raises `FileNotFoundError`). -/
def fileStatOps (cs : List Node) : List FSOp :=
  (cs.filter isFileLike).map (fun _ => ⟨"stat", true⟩)

mutual

/-- The sequence of filesystem calls issued by `get_dir_info` on a node, in
program order, each tagged with whether it went through `do_iops_action`; the
`Bool` is `false` when an exception escapes the call (truncating the trace).
The self-stat `os.stat(path)` at the top of `get_dir_info` is issued directly,
not through `do_iops_action`, hence `budgeted = false`; the subsequent
`os.listdir`, classification checks and per-file stats are all wrapped. -/
def scanOps : Node → List FSOp × Bool
  | .dir _ _ _ cs =>
    (⟨"stat", false⟩ :: ⟨"listdir", true⟩ ::
      (classifyFileOps cs ++ classifyDirOps cs ++ fileStatOps cs
        ++ (subScanOps cs).1),
     (subScanOps cs).2)
  | .dlink _ _ _ _ _ tcs =>
    (⟨"stat", false⟩ :: ⟨"listdir", true⟩ ::
      (classifyFileOps tcs ++ classifyDirOps tcs ++ fileStatOps tcs
        ++ (subScanOps tcs).1),
     (subScanOps tcs).2)
  | .vdir _ => ([⟨"stat", false⟩], true)
  | .pdir _ _ => ([⟨"stat", false⟩, ⟨"listdir", true⟩], false)
  | _ => ([], true)

/-- The calls issued by the `for d in dirs` recursion of `get_dir_info`: the
recursive trace of each entry classified as a directory, stopping if an
exception escapes one of the recursive scans. -/
def subScanOps : List Node → List FSOp × Bool
  | [] => ([], true)
  | c :: rest =>
    if osIsDir c then
      match scanOps c with
      | (ops, true) =>
        match subScanOps rest with
        | (ops2, ok2) => (ops ++ ops2, ok2)
      | (ops, false) => (ops, false)
    else subScanOps rest

end

/-! ## Helper lemmas about the aggregation loops -/

theorem foldFiles_entries (fs : List Node) : ∀ acc : DirInfo,
    (foldFiles acc fs).entries_count = acc.entries_count := by
  induction fs with
  | nil => intro acc; rfl
  | cons c rest ih =>
    intro acc
    cases h : lstatResult c with
    | none => simp [foldFiles, h, ih]
    | some p => obtain ⟨s, m⟩ := p; simp [foldFiles, h, ih, applyFileStat]

theorem foldFiles_size (fs : List Node) : ∀ acc : DirInfo,
    (foldFiles acc fs).size = acc.size + fileSizeSum fs := by
  induction fs with
  | nil => intro acc; simp [foldFiles, fileSizeSum]
  | cons c rest ih =>
    intro acc
    cases h : lstatResult c with
    | none => simp [foldFiles, fileSizeSum, h, ih]
    | some p =>
      obtain ⟨s, m⟩ := p
      simp [foldFiles, fileSizeSum, h, ih, applyFileStat]
      omega

theorem applyFileStat_le (acc : DirInfo) (s : Nat) (m : Int)
    (h : acc.oldest_mtime ≤ acc.latest_mtime) :
    (applyFileStat acc s m).oldest_mtime ≤ (applyFileStat acc s m).latest_mtime := by
  simp only [applyFileStat]
  split <;> split <;> omega

theorem foldFiles_le (fs : List Node) : ∀ acc : DirInfo,
    acc.oldest_mtime ≤ acc.latest_mtime →
    (foldFiles acc fs).oldest_mtime ≤ (foldFiles acc fs).latest_mtime := by
  induction fs with
  | nil => intro acc h; exact h
  | cons c rest ih =>
    intro acc h
    cases hl : lstatResult c with
    | none => simpa [foldFiles, hl] using ih acc h
    | some p =>
      obtain ⟨s, m⟩ := p
      simpa [foldFiles, hl] using ih _ (applyFileStat_le acc s m h)

theorem mergeDir_size (acc i : DirInfo) : (mergeDir acc i).size = acc.size + i.size := rfl

theorem mergeDir_entries (acc i : DirInfo) :
    (mergeDir acc i).entries_count = acc.entries_count + i.entries_count := rfl

theorem mergeDir_le (acc i : DirInfo) (h : acc.oldest_mtime ≤ acc.latest_mtime) :
    (mergeDir acc i).oldest_mtime ≤ (mergeDir acc i).latest_mtime := by
  simp only [mergeDir]
  split <;> split <;> omega

theorem foldDirs_size (l : List Node) : ∀ (acc i : DirInfo),
    foldDirs acc l = .ok i → i.size = acc.size + subsSizeSum l := by
  induction l with
  | nil =>
    intro acc i h
    simp only [foldDirs] at h
    cases h
    simp [subsSizeSum]
  | cons c rest ih =>
    intro acc i h
    simp only [foldDirs] at h
    by_cases hd : osIsDir c
    · rw [if_pos hd] at h
      cases hg : get_dir_info c with
      | error e => rw [hg] at h; cases h
      | ok r =>
        rw [hg] at h
        cases r with
        | none =>
          have := ih acc i h
          simp [subsSizeSum, hd, hg]
          omega
        | some j =>
          have := ih (mergeDir acc j) i h
          simp [subsSizeSum, hd, hg, mergeDir_size] at this ⊢
          omega
    · rw [if_neg hd] at h
      have := ih acc i h
      simp [subsSizeSum, hd]
      omega

theorem foldDirs_entries (l : List Node) : ∀ (acc i : DirInfo),
    foldDirs acc l = .ok i → i.entries_count = acc.entries_count + subsEntriesSum l := by
  induction l with
  | nil =>
    intro acc i h
    simp only [foldDirs] at h
    cases h
    simp [subsEntriesSum]
  | cons c rest ih =>
    intro acc i h
    simp only [foldDirs] at h
    by_cases hd : osIsDir c
    · rw [if_pos hd] at h
      cases hg : get_dir_info c with
      | error e => rw [hg] at h; cases h
      | ok r =>
        rw [hg] at h
        cases r with
        | none =>
          have := ih acc i h
          simp [subsEntriesSum, hd, hg]
          omega
        | some j =>
          have := ih (mergeDir acc j) i h
          simp [subsEntriesSum, hd, hg, mergeDir_entries] at this ⊢
          omega
    · rw [if_neg hd] at h
      have := ih acc i h
      simp [subsEntriesSum, hd]
      omega

theorem foldDirs_le (l : List Node) : ∀ (acc i : DirInfo),
    acc.oldest_mtime ≤ acc.latest_mtime → foldDirs acc l = .ok i →
    i.oldest_mtime ≤ i.latest_mtime := by
  induction l with
  | nil =>
    intro acc i hle h
    simp only [foldDirs] at h
    cases h
    exact hle
  | cons c rest ih =>
    intro acc i hle h
    simp only [foldDirs] at h
    by_cases hd : osIsDir c
    · rw [if_pos hd] at h
      cases hg : get_dir_info c with
      | error e => rw [hg] at h; cases h
      | ok r =>
        rw [hg] at h
        cases r with
        | none => exact ih acc i hle h
        | some j => exact ih (mergeDir acc j) i (mergeDir_le acc j hle) h
    · rw [if_neg hd] at h
      exact ih acc i hle h

/-! ## Helper lemmas about pruning vanished files from a listing -/

theorem isFileLike_of_vanished (c : Node) (h : isVanishedFile c = true) :
    isFileLike c = true := by
  cases c <;> simp_all [isVanishedFile, isFileLike, osIsFile]

theorem lstatResult_of_vanished (c : Node) (h : isVanishedFile c = true) :
    lstatResult c = none := by
  cases c <;> simp_all [isVanishedFile, lstatResult]

theorem not_osIsDir_of_vanished (c : Node) (h : isVanishedFile c = true) :
    osIsDir c = false := by
  cases c <;> simp_all [isVanishedFile, osIsDir]

theorem fileLike_length_prune (cs : List Node) :
    (cs.filter isFileLike).length
      = ((pruneVanishedFiles cs).filter isFileLike).length + vanishedFileCount cs := by
  induction cs with
  | nil => simp [pruneVanishedFiles, vanishedFileCount]
  | cons c rest ih =>
    by_cases hv : isVanishedFile c
    · have hf := isFileLike_of_vanished c hv
      simp [pruneVanishedFiles, vanishedFileCount, List.filter, hv, hf] at ih ⊢
      omega
    · by_cases hf : isFileLike c <;>
        simp [pruneVanishedFiles, vanishedFileCount, List.filter, hv, hf] at ih ⊢ <;>
        omega

theorem foldFiles_filter_prune (cs : List Node) : ∀ acc : DirInfo,
    foldFiles acc ((pruneVanishedFiles cs).filter isFileLike)
      = foldFiles acc (cs.filter isFileLike) := by
  induction cs with
  | nil => intro acc; rfl
  | cons c rest ih =>
    intro acc
    by_cases hv : isVanishedFile c
    · have hf := isFileLike_of_vanished c hv
      have hl := lstatResult_of_vanished c hv
      simp [pruneVanishedFiles, List.filter, hv, hf, foldFiles, hl] at ih ⊢
      exact ih acc
    · by_cases hf : isFileLike c <;>
        simp [pruneVanishedFiles, List.filter, hv, hf, foldFiles] at ih ⊢
      · cases hl : lstatResult c <;> simp [hl, ih]
      · exact ih acc

theorem foldDirs_prune (cs : List Node) : ∀ acc : DirInfo,
    foldDirs acc (pruneVanishedFiles cs) = foldDirs acc cs := by
  induction cs with
  | nil => intro acc; rfl
  | cons c rest ih =>
    intro acc
    by_cases hv : isVanishedFile c
    · have hd := not_osIsDir_of_vanished c hv
      simp [pruneVanishedFiles, List.filter, hv] at ih ⊢
      rw [show foldDirs acc (c :: rest) = foldDirs acc rest by
        simp only [foldDirs]; rw [if_neg (by simp [hd])]]
      exact ih acc
    · simp only [pruneVanishedFiles, List.filter, hv] at ih ⊢
      simp only [Bool.not_false, foldDirs]
      by_cases hd : osIsDir c
      · rw [if_pos hd, if_pos hd]
        cases get_dir_info c with
        | error e => rfl
        | ok r => cases r with
          | none => exact ih acc
          | some j => exact ih (mergeDir acc j)
      · rw [if_neg hd, if_neg hd]
        exact ih acc

theorem applyFileStat_addEntries (k : Nat) (acc : DirInfo) (s : Nat) (m : Int) :
    applyFileStat (addEntries k acc) s m = addEntries k (applyFileStat acc s m) := rfl

theorem foldFiles_addEntries (fs : List Node) : ∀ (k : Nat) (acc : DirInfo),
    foldFiles (addEntries k acc) fs = addEntries k (foldFiles acc fs) := by
  induction fs with
  | nil => intro k acc; rfl
  | cons c rest ih =>
    intro k acc
    cases hl : lstatResult c with
    | none => simp [foldFiles, hl, ih]
    | some p =>
      obtain ⟨s, m⟩ := p
      simp [foldFiles, hl, applyFileStat_addEntries, ih]

theorem mergeDir_addEntries (k : Nat) (acc j : DirInfo) :
    mergeDir (addEntries k acc) j = addEntries k (mergeDir acc j) := by
  ext <;> simp [mergeDir, addEntries] <;> omega

theorem foldDirs_addEntries (l : List Node) : ∀ (k : Nat) (acc : DirInfo),
    foldDirs (addEntries k acc) l = Except.map (addEntries k) (foldDirs acc l) := by
  induction l with
  | nil => intro k acc; rfl
  | cons c rest ih =>
    intro k acc
    simp only [foldDirs]
    by_cases hd : osIsDir c
    · rw [if_pos hd, if_pos hd]
      cases get_dir_info c with
      | error e => rfl
      | ok r => cases r with
        | none => exact ih k acc
        | some j =>
          show foldDirs (mergeDir (addEntries k acc) j) rest
              = Except.map (addEntries k) (foldDirs (mergeDir acc j) rest)
          rw [mergeDir_addEntries]
          exact ih k (mergeDir acc j)
    · rw [if_neg hd, if_neg hd]
      exact ih k acc

theorem initInfo_addEntries (n : String) (s : Nat) (m : Int) (a k : Nat) :
    initInfo n s m (a + k) = addEntries k (initInfo n s m a) := by
  ext <;> simp [initInfo, addEntries] <;> omega

/-- Scanning a listing is, up to the `len(files) + 1` entry count computed
before any per-file stat, insensitive to files that vanish between listing
and stat: pruning them from the listing changes the result only by the
`entries_count` offset. -/
theorem scanListing_prune (n : String) (s : Nat) (m : Int) (cs : List Node) :
    scanListing n s m cs
      = Except.map (addEntries (vanishedFileCount cs))
          (scanListing n s m (pruneVanishedFiles cs)) := by
  unfold scanListing
  rw [fileLike_length_prune cs, initInfo_addEntries, foldFiles_addEntries,
    foldDirs_addEntries, foldFiles_filter_prune, foldDirs_prune]

theorem get_dir_info_dir (n : String) (s : Nat) (m : Int) (cs : List Node) :
    get_dir_info (.dir n s m cs) = Except.map some (scanListing n s m cs) := rfl

theorem get_dir_info_dlink (n : String) (ls : Nat) (lm : Int) (ts : Nat)
    (tm : Int) (tcs : List Node) :
    get_dir_info (.dlink n ls lm ts tm tcs)
      = Except.map some (scanListing n ts tm tcs) := rfl

theorem subdirsLoop_all_ok (l : List Node) : ∀ acc : List (Option DirInfo),
    l.all scanOk = true →
    subdirsLoop l acc = (acc.reverse ++ l.map scanYield, none) := by
  induction l with
  | nil => intro acc _; simp [subdirsLoop]
  | cons c rest ih =>
    intro acc h
    simp only [List.all_cons, Bool.and_eq_true] at h
    obtain ⟨h1, h2⟩ := h
    cases hg : get_dir_info c with
    | error e => simp [scanOk, hg] at h1
    | ok r =>
      have : scanYield c = r := by simp [scanYield, hg]
      simp [subdirsLoop, hg, ih (r :: acc) h2, this]

/-! ## The claims -/

/-- C1: the claim asserts that `do_iops_action` never lets more than
`iops_budget` operations execute within one window of the limiter, with at
most 5 for a budget of 5.  The source's budget check is the strict comparison
`_io_calls_since_last_reset > iops_budget`, so the counts 0 through 5 all
pass it: with a budget of 5, six back-to-back operations all execute at time
0, inside a single window, with no forced wait (first conjunct) — one more
than the budget.  The wall-clock half of the claim does hold: with 12
operations the seventh forces the one-second wait, so the run finishes at
monotonic time 1000000001 ns, beyond `ONE_S_IN_NS` (second and third
conjuncts). -/
theorem C1_budget_check_off_by_one :
    runCalls ⟨5, 0, 0⟩ 0 6
      = ([(0, false), (0, false), (0, false), (0, false), (0, false), (0, false)],
         ⟨5, 0, 6⟩)
    ∧ (runCalls ⟨5, 0, 0⟩ 0 12).1
      = [(0, false), (0, false), (0, false), (0, false), (0, false), (0, false),
         (1000000001, true), (1000000001, false), (1000000001, false),
         (1000000001, false), (1000000001, false), (1000000001, false)]
    ∧ ONE_S_IN_NS < 1000000001 :=
  ⟨by decide, by decide, by decide⟩

/-- C2: the claim asserts every filesystem operation of a scan, including the
self-stat at the top of `get_dir_info`, is routed through `do_iops_action`.
In the source the self-stat is the bare call `os.stat(path)`: scanning even
an empty directory issues exactly one operation outside the limiter, the
self-stat, while the listing is wrapped. -/
theorem C2_self_stat_not_rate_limited :
    scanOps (.dir "x" 7 100 []) = ([⟨"stat", false⟩, ⟨"listdir", true⟩], true)
    ∧ (scanOps (.dir "x" 7 100 [])).1.filter (fun o => !o.budgeted)
      = [⟨"stat", false⟩] :=
  ⟨by decide, by decide⟩

/-- C3 counterexample: with a parent whose first child directory vanishes
before its self-stat and two healthy siblings, `get_subdirs_info` yields a
three-element sequence whose first element is `none` — the vanished subtree
is yielded as `None`, not excluded from the output sequence as the claim
states. -/
theorem C3_counterexample_vanished_not_excluded :
    get_subdirs_info [.vdir "a", .dir "b" 1 10 [], .dir "c" 2 20 []]
      = ([none, some ⟨"b", 1, 10, 10, 1⟩, some ⟨"c", 2, 20, 20, 1⟩], none)
    ∧ none ∈ (get_subdirs_info [.vdir "a", .dir "b" 1 10 [], .dir "c" 2 20 []]).1 :=
  ⟨by decide, by decide⟩

/-- C3 (amended): when no exception escapes any child scan, the top-level
enumerator yields exactly `get_dir_info`'s return value for every child
classified as a directory, in listing order — so a vanished subtree
contributes `none` to the output sequence (it is not excluded) while the
remaining siblings still produce their records. -/
theorem C3_enumerator_yields_vanished_as_none :
    ∀ cs : List Node, (cs.filter osIsDir).all scanOk = true →
      get_subdirs_info cs = ((cs.filter osIsDir).map scanYield, none) := by
  intro cs h
  unfold get_subdirs_info
  simpa using subdirsLoop_all_ok (cs.filter osIsDir) [] h

/-- C3 witness: the amended statement applied to the counterexample's
parent listing. -/
theorem C3_enumerator_yields_vanished_as_none_witness :
    (([.vdir "a", .dir "b" 1 10 [], .dir "c" 2 20 []] : List Node).filter osIsDir).all
        scanOk = true
    ∧ get_subdirs_info [.vdir "a", .dir "b" 1 10 [], .dir "c" 2 20 []]
      = ((([.vdir "a", .dir "b" 1 10 [], .dir "c" 2 20 []] : List Node).filter
          osIsDir).map scanYield, none) :=
  ⟨by decide, C3_enumerator_yields_vanished_as_none _ (by decide)⟩

/-- C4: the claim asserts a permission-denied child is excluded and the
enumeration continues with the remaining children (two records for two
healthy siblings).  In the source, `except OSError` precedes
`except PermissionError`; since `PermissionError` subclasses `OSError`,
every `PermissionError` is caught by the first clause, fails its
`errno == 116` test, and is re-raised — the dedicated errno-13 handler is
unreachable (third conjunct).  The generator therefore terminates with the
exception: a denied child listed first yields zero records, one listed
second leaves only the record of the child before it (first and second
conjuncts), never the claimed two records with continuation. -/
theorem C4_permission_denied_aborts_enumeration :
    get_subdirs_info [.pdir "a" 13, .dir "b" 1 10 [], .dir "c" 2 20 []]
      = ([], some (.permissionError 13))
    ∧ get_subdirs_info [.dir "b" 1 10 [], .pdir "a" 13, .dir "c" 2 20 []]
      = ([some ⟨"b", 1, 10, 10, 1⟩], some (.permissionError 13))
    ∧ subdirsExcSwallowed (.permissionError 13) = false :=
  ⟨by decide, by decide, by decide⟩

/-- C5 counterexample: a directory with own size 5 containing files of sizes
10 and 30 and one file that vanishes before its stat.  The vanished file is
excluded from the size (45 = 5 + 10 + 30) and from the mtime bounds, but
`entries_count` is 4 — computed as `len(files) + 1` before any stat — while
the claim's formula 1 + (# stat-succeeded file-like entries) + 0 = 1 + 2
(second conjunct) gives 3. -/
theorem C5_counterexample_vanished_file_still_counted :
    get_dir_info (.dir "d" 5 100 [.file "f1" 10 50, .vfile "f2", .file "f3" 30 200])
      = .ok (some ⟨"d", 45, 200, 50, 4⟩)
    ∧ (([.file "f1" 10 50, .vfile "f2", .file "f3" 30 200] : List Node).filter
        (fun c => isFileLike c && (lstatResult c).isSome)).length = 2 :=
  ⟨by decide, by decide⟩

/-- C5 (amended): a file deleted between listing and stat is excluded from
`total_size` and both mtime bounds but still counted in `entries_count`:
scanning a listing equals scanning the listing with the vanished files
removed, except that `entries_count` is larger by their number (first
conjunct), and `entries_count` equals 1 plus the number of file-like entries
classified at listing time — stat-succeeded or not — plus the sum of the
surviving subtrees' entry counts (second conjunct). -/
theorem C5_vanished_file_excluded_from_size_and_times_only :
    ∀ (n : String) (s : Nat) (m : Int) (cs : List Node),
      get_dir_info (.dir n s m cs)
        = Except.map (Option.map (addEntries (vanishedFileCount cs)))
            (get_dir_info (.dir n s m (pruneVanishedFiles cs)))
      ∧ ∀ i : DirInfo, get_dir_info (.dir n s m cs) = .ok (some i) →
          i.entries_count = 1 + (cs.filter isFileLike).length + subsEntriesSum cs := by
  intro n s m cs
  constructor
  · rw [get_dir_info_dir, get_dir_info_dir, scanListing_prune]
    cases scanListing n s m (pruneVanishedFiles cs) with
    | error e => rfl
    | ok i => rfl
  · intro i h
    rw [get_dir_info_dir] at h
    cases hs : scanListing n s m cs with
    | error e => rw [hs] at h; cases h
    | ok j =>
      rw [hs] at h
      simp only [Except.map, Except.ok.injEq, Option.some.injEq] at h
      subst h
      unfold scanListing at hs
      have h1 := foldDirs_entries cs _ _ hs
      rw [foldFiles_entries] at h1
      simp only [initInfo] at h1
      omega

/-- C5 witness: the amended statement applied to the counterexample's
directory. -/
theorem C5_vanished_file_excluded_from_size_and_times_only_witness :
    get_dir_info (.dir "d" 5 100 [.file "f1" 10 50, .vfile "f2", .file "f3" 30 200])
      = Except.map
          (Option.map (addEntries (vanishedFileCount
            [.file "f1" 10 50, .vfile "f2", .file "f3" 30 200])))
          (get_dir_info (.dir "d" 5 100 (pruneVanishedFiles
            [.file "f1" 10 50, .vfile "f2", .file "f3" 30 200])))
    ∧ (⟨"d", 45, 200, 50, 4⟩ : DirInfo).entries_count
      = 1 + (([.file "f1" 10 50, .vfile "f2", .file "f3" 30 200] : List Node).filter
          isFileLike).length
        + subsEntriesSum [.file "f1" 10 50, .vfile "f2", .file "f3" 30 200] :=
  ⟨(C5_vanished_file_excluded_from_size_and_times_only "d" 5 100 _).1,
   (C5_vanished_file_excluded_from_size_and_times_only "d" 5 100 _).2 _ (by decide)⟩

/-- C6: for every successfully scanned directory, `total_size` equals the
directory's own stat size plus the sizes reported by the successful stats of
its direct file-like entries plus the `size` fields of its surviving
descendant subtrees. -/
theorem C6_total_size_decomposition :
    ∀ (n : String) (s : Nat) (m : Int) (cs : List Node) (i : DirInfo),
      get_dir_info (.dir n s m cs) = .ok (some i) →
      i.size = s + fileSizeSum (cs.filter isFileLike) + subsSizeSum cs := by
  intro n s m cs i h
  rw [get_dir_info_dir] at h
  cases hs : scanListing n s m cs with
  | error e => rw [hs] at h; cases h
  | ok j =>
    rw [hs] at h
    simp only [Except.map, Except.ok.injEq, Option.some.injEq] at h
    subst h
    unfold scanListing at hs
    have h1 := foldDirs_size cs _ _ hs
    rw [foldFiles_size] at h1
    simp only [initInfo] at h1
    omega

/-- C6 witness: a leaf directory of own size 7 holding files of sizes 10, 20
and 30 reports total size 67 = 7 + 60, as the claim's example requires. -/
theorem C6_total_size_decomposition_witness :
    get_dir_info (.dir "leaf" 7 100
        [.file "f1" 10 50, .file "f2" 20 200, .file "f3" 30 100])
      = .ok (some ⟨"leaf", 67, 200, 50, 4⟩)
    ∧ (⟨"leaf", 67, 200, 50, 4⟩ : DirInfo).size
      = 7 + fileSizeSum (([.file "f1" 10 50, .file "f2" 20 200, .file "f3" 30 100] :
          List Node).filter isFileLike)
        + subsSizeSum [.file "f1" 10 50, .file "f2" 20 200, .file "f3" 30 100] :=
  ⟨by decide, C6_total_size_decomposition "leaf" 7 100 _ _ (by decide)⟩

/-- C7: the claim asserts each entry is classified as exactly one of
file-like or subdirectory and a symlink to a directory is accounted only by
its own link stat, its target never recursed into.  In the source the checks
`os.path.isfile`/`os.path.isdir` follow symlinks, so a symlink to a
directory satisfies both the `files` filter (via `islink`) and the `dirs`
filter (first two conjuncts).  Scanning a directory of own size 1 (mtime
1000) holding such a symlink (link stat 2/900, target directory 3/800
containing a 100-byte file of mtime 700) therefore reports size
106 = 1 + 2 + 3 + 100 and 4 entries, with oldest mtime 800 taken from the
recursed target — the target subtree is both recursed into and folded into
every aggregate, where the claim demands size 3 = 1 + 2 and 2 entries. -/
theorem C7_dir_symlink_double_classified_and_recursed :
    isFileLike (.dlink "l" 2 900 3 800 [.file "f" 100 700]) = true
    ∧ osIsDir (.dlink "l" 2 900 3 800 [.file "f" 100 700]) = true
    ∧ get_dir_info (.dir "p" 1 1000 [.dlink "l" 2 900 3 800 [.file "f" 100 700]])
      = .ok (some ⟨"p", 106, 1000, 800, 4⟩) :=
  ⟨by decide, by decide, by decide⟩

/-- C8: folding a surviving descendant subtree updates the parent's maximum
and minimum with the descendant's `latest_mtime` only — the result does not
depend on the descendant's `oldest_mtime` at all (first conjunct), the new
maximum is `max` of the old and the descendant's latest (second), the new
minimum is `min` of the old and the descendant's latest (third) — while a
direct file-like entry updates both trackers with its own mtime (fourth and
fifth). -/
theorem C8_merge_uses_descendant_latest_for_min_and_max :
    ∀ (acc i : DirInfo) (x : Int) (s : Nat) (m : Int),
      mergeDir acc i = mergeDir acc { i with oldest_mtime := x }
      ∧ (mergeDir acc i).latest_mtime = max acc.latest_mtime i.latest_mtime
      ∧ (mergeDir acc i).oldest_mtime = min acc.oldest_mtime i.latest_mtime
      ∧ (applyFileStat acc s m).latest_mtime = max acc.latest_mtime m
      ∧ (applyFileStat acc s m).oldest_mtime = min acc.oldest_mtime m := by
  intro acc i x s m
  refine ⟨rfl, ?_, ?_, ?_, ?_⟩ <;>
    (simp only [mergeDir, applyFileStat]; split <;> omega)

/-- C9: every `DirInfo` produced by a successful scan of any node satisfies
`oldest_mtime ≤ latest_mtime`. -/
theorem C9_oldest_le_latest :
    ∀ (t : Node) (i : DirInfo), get_dir_info t = .ok (some i) →
      i.oldest_mtime ≤ i.latest_mtime := by
  intro t i h
  cases t with
  | dir n s m cs =>
    rw [get_dir_info_dir] at h
    cases hs : scanListing n s m cs with
    | error e => rw [hs] at h; cases h
    | ok j =>
      rw [hs] at h
      simp only [Except.map, Except.ok.injEq, Option.some.injEq] at h
      subst h
      unfold scanListing at hs
      exact foldDirs_le cs _ _ (foldFiles_le _ _ (by simp [initInfo])) hs
  | dlink n ls lm ts tm tcs =>
    rw [get_dir_info_dlink] at h
    cases hs : scanListing n ts tm tcs with
    | error e => rw [hs] at h; cases h
    | ok j =>
      rw [hs] at h
      simp only [Except.map, Except.ok.injEq, Option.some.injEq] at h
      subst h
      unfold scanListing at hs
      exact foldDirs_le tcs _ _ (foldFiles_le _ _ (by simp [initInfo])) hs
  | file n s m => simp [get_dir_info] at h
  | vfile n => simp [get_dir_info] at h
  | flink n s m => simp [get_dir_info] at h
  | vdir n => simp [get_dir_info] at h
  | pdir n c => simp [get_dir_info] at h

/-- C9 witness: a two-level tree (root 3/500 with a file 4/900 and a
subdirectory 1/100 holding a file 2/50) scans to latest 900 and oldest
100, and the invariant holds there. -/
theorem C9_oldest_le_latest_witness :
    (⟨"r", 10, 900, 100, 4⟩ : DirInfo).oldest_mtime
      ≤ (⟨"r", 10, 900, 100, 4⟩ : DirInfo).latest_mtime :=
  C9_oldest_le_latest
    (.dir "r" 3 500 [.file "a" 4 900, .dir "s" 1 100 [.file "b" 2 50]]) _ (by decide)

/-- C10: when the wrapped operation raises, `do_iops_action` returns the
same exception unchanged (first conjunct), its state is exactly the state
left by the window-management phase — the `+= 1` after the call never runs
(second conjunct) — and that phase never increases the call counter (third
conjunct), so a failed operation consumes none of the IOPS budget. -/
theorem C10_failed_op_propagates_and_counter_not_incremented :
    ∀ (st : LimiterState) (t : Nat) (e : PyExc),
      (do_iops_action st t (Except.error e)).2 = Except.error e
      ∧ (do_iops_action st t (Except.error e)).1 = limiterAdjust st t
      ∧ (limiterAdjust st t).1.io_calls_since_last_reset
          ≤ st.io_calls_since_last_reset := by
  intro st t e
  refine ⟨rfl, rfl, ?_⟩
  unfold limiterAdjust
  dsimp only
  split <;> split <;> simp
